import Mathlib

/-!
Shallow embedding of the pkg.golang.fail server (src/src/main.rs).

The program serves auto-generated Go "n-ary tuple" packages over git
smart-HTTP.  The parts with real invariants are:
  * `write_nary_tuple` / the package generator: pure content generation
    keyed by the arity `n`, plus a fixed-metadata git commit;
  * `init_repo`: race-safe, idempotent materialization of a per-key
    repository directory (`repos/{n}`) via stage + atomic rename;
  * `tuple_n_git` / `tuple_n_git_handler`: the smart-HTTP gateway
    delegating to the external `git-upload-pack` capability.

Stateful code is embedded with explicit environments: every fallible
syscall outcome and every external-capability response is an input, and
the side effects performed are returned as an explicit trace.
-/

namespace PkgGolangFail

/-- Raw bytes, as natural numbers (each < 256 in practice). -/
abbrev Bytes := List Nat

/-- The bytes of an ASCII string literal. -/
def strBytes (s : String) : Bytes := s.data.map Char.toNat

/-- The `std::io::ErrorKind` values the program distinguishes. -/
inductive IoErrorKind
  | notFound
  | alreadyExists
  | permissionDenied
  | otherKind
deriving DecidableEq, Repr

/-- Outcome of a single fallible syscall. -/
inductive IoResult (α : Type)
  | ok (a : α)
  | err (k : IoErrorKind)
deriving DecidableEq, Repr

/-- An `anyhow::Error` as the program builds them: either a propagated
`std::io::Error` (carrying its kind) or a `bail!`/`context` message. -/
inductive AppError
  | ioError (k : IoErrorKind)
  | message (s : String)
deriving DecidableEq, Repr

/-- Rendering used when the handler logs `unhandled git error: {}`. -/
def AppError.display : AppError → String
  | .ioError _ => "io error"
  | .message s => s

/-- Outcomes of the fallible filesystem calls made by one `init_repo`
invocation.  A concurrent materializer is modelled by the `rename`
outcome being free: it may report `alreadyExists` even though the
earlier `read_dir` said `notFound`. -/
structure FsEnv where
  /-- `std::fs::read_dir(repos/{n})`: on success, the directory entries
  (which the code ignores). -/
  read_dir : IoResult (List String)
  /-- `std::fs::create_dir_all("repos")`. -/
  create_dir_all : IoResult Unit
  /-- `tempfile::TempDir::new_in("repos")`: on success, the staging path. -/
  temp_dir : IoResult String
  /-- The I/O performed by `write_nary_tuple` on the staging directory. -/
  write_repo : Except AppError Unit
  /-- `std::fs::rename(tmp, repos/{n})`. -/
  rename : IoResult Unit

/-- The filesystem side effects `init_repo` can perform, in order. -/
inductive FsEffect
  | readDir (path : String)
  | createDirAll (path : String)
  | createTempDir (parent : String)
  | writeNaryTuple (root : String) (n : Nat)
  | renameDir (src : String) (dst : String)
  | removeDirAll (path : String)
deriving DecidableEq, Repr

/-- Result, effect trace and log lines of one `init_repo` call. -/
structure FsOutcome where
  result : Except AppError String
  effects : List FsEffect
  logs : List String
deriving Repr

/-- The canonical repository path for key `n`: `format!("repos/{}", n)`. -/
def repoPath (n : Nat) : String := "repos/" ++ toString n

/-- Embedding of `init_repo` (src/src/main.rs:224-254).

```rust
let path: PathBuf = format!("repos/{}", n).into();
match std::fs::read_dir(&path) {
    Ok(_) => return Ok(path),
    Err(e) if e.kind() == ErrorKind::NotFound => { println!("not found: {}", n); }
    r => { r?; }
};
std::fs::create_dir_all("repos")?;
let tmp = tempfile::TempDir::new_in("repos")?;
write_nary_tuple(tmp.path(), n)?;
let tmp_path = tmp.into_path();
match std::fs::rename(&tmp_path, &path) {
    Ok(_) => Ok(path),
    Err(e) if e.kind() == ErrorKind::AlreadyExists => {
        let _ = std::fs::remove_dir_all(&tmp_path);
        Ok(path)
    }
    Err(e) => Err(e)?,
}
``` -/
def init_repo (n : Nat) (env : FsEnv) : FsOutcome :=
  let path := repoPath n
  match env.read_dir with
  | .ok _ => ⟨.ok path, [.readDir path], []⟩
  | .err k =>
    if k = .notFound then
      match env.create_dir_all with
      | .err k2 =>
        ⟨.error (.ioError k2), [.readDir path, .createDirAll "repos"],
          ["not found: " ++ toString n]⟩
      | .ok _ =>
        match env.temp_dir with
        | .err k2 =>
          ⟨.error (.ioError k2),
            [.readDir path, .createDirAll "repos", .createTempDir "repos"],
            ["not found: " ++ toString n]⟩
        | .ok tmp =>
          match env.write_repo with
          | .error e =>
            ⟨.error e,
              [.readDir path, .createDirAll "repos", .createTempDir "repos",
                .writeNaryTuple tmp n],
              ["not found: " ++ toString n]⟩
          | .ok _ =>
            match env.rename with
            | .ok _ =>
              ⟨.ok path,
                [.readDir path, .createDirAll "repos", .createTempDir "repos",
                  .writeNaryTuple tmp n, .renameDir tmp path],
                ["not found: " ++ toString n]⟩
            | .err k2 =>
              if k2 = .alreadyExists then
                ⟨.ok path,
                  [.readDir path, .createDirAll "repos", .createTempDir "repos",
                    .writeNaryTuple tmp n, .renameDir tmp path,
                    .removeDirAll tmp],
                  ["not found: " ++ toString n]⟩
              else
                ⟨.error (.ioError k2),
                  [.readDir path, .createDirAll "repos", .createTempDir "repos",
                    .writeNaryTuple tmp n, .renameDir tmp path],
                  ["not found: " ++ toString n]⟩
    else
      ⟨.error (.ioError k), [.readDir path], []⟩

/-- Ambient process state the real program could observe (wall clock,
process identity).  It is threaded explicitly through the generator so
that determinism across invocations and processes is an expressible
property; the source never consults it, which the definitions reflect. -/
structure Ambient where
  clock : Nat
  pid : Nat
deriving DecidableEq, Repr

/-- ASCII apostrophe, written via its code point. -/
def apos : Char := Char.ofNat 39

/-- The type-parameter name list the generator maps over repeatedly:
`(0..n).map(|i| format!("T{}", i))` = `[T0, T1, ...]`. -/
def typeParamNames (n : Nat) : List String :=
  (List.range n).map fun i => "T" ++ toString i

/-- The member declarations of the generated struct, one per type
parameter: `(0..n).map(|i| format!("T{i} T{i}"))` — member `Ti` of
type `Ti`. -/
def memberDecls (n : Nat) : List String :=
  (List.range n).map fun i => "T" ++ toString i ++ " T" ++ toString i

/-- The constructor parameter declarations:
`(0..n).map(|i| format!("t{i} T{i}"))` — positional argument `ti` of
type `Ti`. -/
def newArgDecls (n : Nat) : List String :=
  (List.range n).map fun i => "t" ++ toString i ++ " T" ++ toString i

/-- The expressions returned by `Unpack`, in declaration order:
`(0..n).map(|i| format!("t.T{}", i))`. -/
def unpackRetExprs (n : Nat) : List String :=
  (List.range n).map fun i => "t.T" ++ toString i

/-- The arguments of the struct literal inside `New`:
`(0..n).map(|i| format!("t{}", i))`. -/
def structInstArgs (n : Nat) : List String :=
  (List.range n).map fun i => "t" ++ toString i

/-- Content of the generated `go.mod` (src/src/main.rs:260-268):
`module pkg.golang.fail/tuple/{n}/tuple\n\ngo 1.18`. -/
def goModContent (n : Nat) : String :=
  "module pkg.golang.fail/tuple/" ++ toString n ++ "/tuple\n\ngo 1.18"

/-- The `constraints` string (src/src/main.rs:271-281):
empty for n = 0, else `[T0, T1, ... any]`. -/
def constraints (n : Nat) : String :=
  if n = 0 then ""
  else "[" ++ String.intercalate ", " (typeParamNames n) ++ " any]"

/-- The `tuple_members` string (src/src/main.rs:283-290):
empty for n = 0, else `T0 T0`, `T1 T1`, ... joined by `\n\t`. -/
def tuple_members (n : Nat) : String :=
  if n = 0 then ""
  else String.intercalate "\n\t" (memberDecls n)

/-- The `inst_params` string (src/src/main.rs:292-302):
empty for n = 0, else `[T0, T1, ...]`. -/
def inst_params (n : Nat) : String :=
  if n = 0 then ""
  else "[" ++ String.intercalate ", " (typeParamNames n) ++ "]"

/-- The `multiple_ret` string (src/src/main.rs:304-314):
empty for n = 0, else `(T0, T1, ...) ` with a trailing space. -/
def multiple_ret (n : Nat) : String :=
  if n = 0 then ""
  else "(" ++ String.intercalate ", " (typeParamNames n) ++ ") "

/-- The `multiple_ret_body` string (src/src/main.rs:316-326):
empty for n = 0, else `return t.T0, t.T1, ...`. -/
def multiple_ret_body (n : Nat) : String :=
  if n = 0 then ""
  else "return " ++ String.intercalate ", " (unpackRetExprs n)

/-- The `new_args` string (src/src/main.rs:328-331):
`t0 T0, t1 T1, ...` (plain join, empty at n = 0). -/
def new_args (n : Nat) : String :=
  String.intercalate ", " (newArgDecls n)

/-- The `struct_inst_body` string (src/src/main.rs:333-336):
`t0, t1, ...` (plain join, empty at n = 0). -/
def struct_inst_body (n : Nat) : String :=
  String.intercalate ", " (structInstArgs n)

/-- Content of the generated `tuple.go` (src/src/main.rs:340-366), the
format template instantiated with the pieces above.  `{{`/`}}` in the
Rust raw string are literal braces; the indentation inside the template
is a single tab character; the file ends with a newline. -/
def tupleGoContent (n : Nat) : String :=
  "// Package tuple provides an " ++ toString n ++
    "-ary tuple implementation. This is useful for cases\n" ++
  "// where multiple values should be grouped together, such as for passing across channels.\n" ++
  "// Multiple returns and n-ary tuples may be converted between as well by using the " ++
    apos.toString ++ "New" ++ apos.toString ++ " method to\n" ++
  "// go from n-ary return to a Tuple, and using Tuple.Unpack to convert in the other direction.\n" ++
  "package tuple\n" ++
  "\n" ++
  "// Tuple implements an " ++ toString n ++ "-ary generic tuple.\n" ++
  "// It may be used\n" ++
  "type Tuple" ++ constraints n ++ " struct \x7b\n" ++
  "\t" ++ tuple_members n ++ "\n" ++
  "\x7d\n" ++
  "\n" ++
  "// New constructs a new tuple from the given arguments.\n" ++
  "func New" ++ constraints n ++ "(" ++ new_args n ++ ") Tuple" ++
    inst_params n ++ " \x7b\n" ++
  "\treturn Tuple" ++ inst_params n ++ "\x7b" ++ struct_inst_body n ++ "\x7d\n" ++
  "\x7d\n" ++
  "\n" ++
  "// Unpack unpacks a Tuple via multiple-return of the contained data.\n" ++
  "func (t Tuple" ++ inst_params n ++ ") Unpack() " ++ multiple_ret n ++ "\x7b\n" ++
  "\t" ++ multiple_ret_body n ++ "\n" ++
  "\x7d\n"

/-- Modelled from the spec: the literal bytes of `src/BSD3_LICENSE`
(a compile-time `include_bytes!` constant) are not under src/; the spec
says only that the generator "produces a fixed license file, identical
for every key".  The claims never depend on the exact bytes, only on
this being one fixed constant. -/
def BSD3_LICENSE : Bytes := strBytes "BSD 3-Clause License"

/-- The three generated file contents: manifest, source body, license. -/
structure GeneratedSource where
  goMod : String
  tupleGo : String
  license : Bytes
deriving DecidableEq, Repr

/-- The pure content-generation part of `write_nary_tuple`
(src/src/main.rs:258-370): the `GeneratedSource` for key `n`. -/
def generate (_amb : Ambient) (n : Nat) : GeneratedSource :=
  ⟨goModContent n, tupleGoContent n, BSD3_LICENSE⟩

/-- A `git2::Signature`: name, email, and a `git2::Time` (seconds since
epoch plus timezone offset in minutes). -/
structure Signature where
  name : String
  email : String
  timeSecs : Int
  tzOffsetMinutes : Int
deriving DecidableEq, Repr

/-- The filesystem and git2 operations `write_nary_tuple` performs. -/
inductive RepoAction
  | writeFile (path : String) (content : Bytes)
  | gitInit (root : String)
  | indexAdd (path : String)
  | writeTree
  | commit (updateRef : Option String) (author : Signature)
      (committer : Signature) (message : String) (parentCount : Nat)
  | setHead (refname : String)
deriving DecidableEq, Repr

/-- The signature built at src/src/main.rs:385-389:
`Signature::new("Euan Kemp", "euank" + "@" + "euank.com", Time::new(420, 69))`. -/
def commitSignature : Signature :=
  ⟨"Euan Kemp", "euank" ++ "@" ++ "euank.com", 420, 69⟩

/-- Embedding of `write_nary_tuple` (src/src/main.rs:258-401) as its
ordered trace of filesystem and git2 operations on the staging root:
write the three generated files, init a repository, stage the files,
write the tree, create the single parentless commit on
`refs/heads/main` with the fixed signature, and set the head. -/
def write_nary_tuple (_amb : Ambient) (root : String) (n : Nat) :
    List RepoAction :=
  [ .writeFile (root ++ "/go.mod") (strBytes (goModContent n)),
    .writeFile (root ++ "/tuple.go") (strBytes (tupleGoContent n)),
    .writeFile (root ++ "/LICENSE") BSD3_LICENSE,
    .gitInit root,
    .indexAdd "go.mod",
    .indexAdd "tuple.go",
    .indexAdd "LICENSE",
    .writeTree,
    .commit (some "refs/heads/main") commitSignature commitSignature
      "Initial commit" 0,
    .setHead "refs/heads/main" ]

/-- An inbound request to the `/tuple/:n/tuple.git/*tree` route:
the extracted key `n`, the matched subpath, the query parameters, and
the body as the stream of data frames the axum `HttpBody::data` method yields. -/
structure Request where
  n : Nat
  path : String
  query : List (String × String)
  body : List Bytes
deriving DecidableEq, Repr

/-- `HashMap::get`: first binding of the key, if any. -/
def queryGet (q : List (String × String)) (k : String) : Option String :=
  (q.find? fun p => p.1 = k).map fun p => p.2

/-- The external `git-upload-pack` capability: each operation maps the
repository path (and, for negotiate, the bytes written to the stdin of the child) to the exit success and captured stdout of the child. -/
structure GitCap where
  advertise_refs : String → Bool × Bytes
  negotiate : String → Bytes → Bool × Bytes

/-- An HTTP response as the program builds them: status (200 unless
set), optional Content-Type header, body bytes. -/
structure Response where
  status : Nat
  contentType : Option String
  body : Bytes
deriving DecidableEq, Repr

/-- Result of running fallible code that can also panic (`unwrap`). -/
inductive RunResult (α : Type)
  | ok (a : α)
  | err (e : AppError)
  | panic (msg : String)
deriving DecidableEq, Repr

/-- Embedding of `tuple_n_git` (src/src/main.rs:137-222).

First materializes the repository via `init_repo`, then dispatches on
the subpath: `/info/refs` checks the `service` query parameter
(default empty) against `git-upload-pack` and bails on mismatch, then
runs the advertise operation and frames its stdout; `/git-upload-pack`
takes the FIRST body data frame — `req.body_mut().data().await.unwrap()`
panics when the body yields no frame — writes it to the child and
returns the stdout of the child; any other subpath bails. -/
def tuple_n_git (req : Request) (env : FsEnv) (cap : GitCap) :
    RunResult Response :=
  match (init_repo req.n env).result with
  | .error e => .err e
  | .ok repo =>
    if req.path = "/info/refs" then
      if (queryGet req.query "service").getD "" ≠ "git-upload-pack" then
        .err (.message "unsupported service; use a better git client")
      else
        let out := cap.advertise_refs repo
        if out.1 then
          .ok ⟨200, some "application/x-git-upload-pack-advertisement",
            strBytes "001e# service=git-upload-pack\n0000" ++ out.2⟩
        else
          .err (.message
            "git-upload-pack --advertise-refs did not have success")
    else if req.path = "/git-upload-pack" then
      match req.body.head? with
      | none => .panic "called Option::unwrap() on a None value"
      | some chunk =>
        let out := cap.negotiate repo chunk
        if out.1 then
          .ok ⟨200, some "application/x-git-upload-pack-result", out.2⟩
        else
          .err (.message "git-upload-pack did not exit with success")
    else
      .err (.message ("not supported: " ++ req.path))

/-- What `tuple_n_git_handler` produces: a response plus the log lines
it printed, or a propagated panic. -/
inductive HResult
  | resp (r : Response) (logs : List String)
  | panic (msg : String)
deriving DecidableEq, Repr

/-- Embedding of `tuple_n_git_handler` (src/src/main.rs:118-135): an
`Ok` response passes through; EVERY error — whatever its kind — is
logged as `unhandled git error: {e}` and surfaced as the one opaque
`500 internal server error` response (no Content-Type header). -/
def tuple_n_git_handler (req : Request) (env : FsEnv) (cap : GitCap) :
    HResult :=
  match tuple_n_git req env cap with
  | .ok r => .resp r []
  | .err e => .resp ⟨500, none, strBytes "internal server error"⟩
      ["unhandled git error: " ++ e.display]
  | .panic m => .panic m

/-! ### Concrete inputs used by witnesses and counterexamples -/

/-- A filesystem environment where the canonical directory exists. -/
def fastPathEnv : FsEnv :=
  ⟨IoResult.ok [], IoResult.ok (), IoResult.ok "repos/.tmpA",
    Except.ok (), IoResult.ok ()⟩

/-- A filesystem environment for a fresh materialization that loses the
rename race: `read_dir` reports `NotFound`, everything succeeds until
`rename` reports `AlreadyExists`. -/
def raceEnv : FsEnv :=
  ⟨IoResult.err IoErrorKind.notFound, IoResult.ok (),
    IoResult.ok "repos/.tmpB", Except.ok (),
    IoResult.err IoErrorKind.alreadyExists⟩

/-- A concrete capability: advertise returns empty output, negotiate
echoes its stdin back as stdout. -/
def echoCap : GitCap :=
  ⟨fun _ => (true, []), fun _ stdin => (true, stdin)⟩

/-! ### C7 -/

/-- C7: if the canonical repository path for key `n` already exists
(`read_dir` succeeds, whatever the entries), `init_repo` returns that
path immediately and its effect trace is the single `read_dir` — no
generation, no staging, no commit, no new files or repository objects. -/
theorem init_repo_idempotent_fast_path (n : Nat) (env : FsEnv)
    (d : List String) (h : env.read_dir = IoResult.ok d) :
    (init_repo n env).result = Except.ok (repoPath n) ∧
    (init_repo n env).effects = [FsEffect.readDir (repoPath n)] := by
  simp [init_repo, h]

/-- Witness for C7 at n = 7 with a populated directory. -/
theorem init_repo_idempotent_fast_path_witness :
    (init_repo 7 fastPathEnv).result = Except.ok (repoPath 7) ∧
    (init_repo 7 fastPathEnv).effects = [FsEffect.readDir (repoPath 7)] :=
  init_repo_idempotent_fast_path 7 fastPathEnv [] rfl

/-! ### C10 -/

/-- C10: `init_repo` treats ANY readable directory at the canonical
path as the materialized repository: whatever the entries `d` are
(empty, foreign, or a real repository), the call returns the canonical
path, and the whole outcome is independent of the directory contents
and of every other aspect of the environment — no validation happens. -/
theorem init_repo_no_content_validation (n : Nat) (env env2 : FsEnv)
    (d d2 : List String) (h : env.read_dir = IoResult.ok d)
    (h2 : env2.read_dir = IoResult.ok d2) :
    (init_repo n env).result = Except.ok (repoPath n) ∧
    init_repo n env = init_repo n env2 := by
  simp [init_repo, h, h2]

/-- Witness for C10: an empty directory and a foreign one give the
same successful outcome. -/
theorem init_repo_no_content_validation_witness :
    (init_repo 3 fastPathEnv).result = Except.ok (repoPath 3) ∧
    init_repo 3 fastPathEnv =
      init_repo 3 ⟨IoResult.ok ["unrelated.txt"], IoResult.err
        IoErrorKind.otherKind, IoResult.err IoErrorKind.otherKind,
        Except.error (AppError.message "x"), IoResult.err
        IoErrorKind.otherKind⟩ :=
  init_repo_no_content_validation 3 fastPathEnv _ [] ["unrelated.txt"]
    rfl rfl

/-! ### C2 -/

/-- C2: in a fresh materialization (canonical path absent, staging and
generation succeed), a rename failure of kind `AlreadyExists` — the
lost race — is tolerated: the staging directory is removed and the call
returns the canonical path successfully; a rename failure of any other
kind is surfaced as the propagated filesystem error, fatal to the
request. -/
theorem init_repo_rename_race (n : Nat) (env : FsEnv) (tmp : String)
    (h1 : env.read_dir = IoResult.err IoErrorKind.notFound)
    (h2 : env.create_dir_all = IoResult.ok ())
    (h3 : env.temp_dir = IoResult.ok tmp)
    (h4 : env.write_repo = Except.ok ()) :
    (env.rename = IoResult.err IoErrorKind.alreadyExists →
      (init_repo n env).result = Except.ok (repoPath n) ∧
      FsEffect.removeDirAll tmp ∈ (init_repo n env).effects) ∧
    (∀ k, env.rename = IoResult.err k → k ≠ IoErrorKind.alreadyExists →
      (init_repo n env).result = Except.error (AppError.ioError k)) := by
  constructor
  · intro hr
    simp [init_repo, h1, h2, h3, h4, hr]
  · intro k hr hk
    simp [init_repo, h1, h2, h3, h4, hr, hk]

/-- Witness for C2: losing the race at n = 9 still succeeds and
discards the staging directory. -/
theorem init_repo_rename_race_witness :
    (init_repo 9 raceEnv).result = Except.ok (repoPath 9) ∧
    FsEffect.removeDirAll "repos/.tmpB" ∈ (init_repo 9 raceEnv).effects :=
  (init_repo_rename_race 9 raceEnv "repos/.tmpB" rfl rfl rfl rfl).1 rfl

/-! ### C9 -/

/-- C9: on the pack-negotiation subpath, whenever the materialized
repository resolves but the request body yields no data frame, the
handler code panics unwrapping the missing first chunk
(`req.body_mut().data().await.unwrap()`); no error response of any
kind is produced. -/
theorem negotiate_empty_body_panics (req : Request) (env : FsEnv)
    (cap : GitCap) (repo : String)
    (hpath : req.path = "/git-upload-pack")
    (hbody : req.body = [])
    (hinit : (init_repo req.n env).result = Except.ok repo) :
    tuple_n_git req env cap =
      RunResult.panic "called Option::unwrap() on a None value" := by
  simp [tuple_n_git, hinit, hpath, hbody]

/-- Witness for C9: an empty-body request to the upload-pack endpoint
of key 2 panics. -/
theorem negotiate_empty_body_panics_witness :
    tuple_n_git ⟨2, "/git-upload-pack", [], []⟩ fastPathEnv echoCap =
      RunResult.panic "called Option::unwrap() on a None value" :=
  negotiate_empty_body_panics ⟨2, "/git-upload-pack", [], []⟩
    fastPathEnv echoCap (repoPath 2) rfl rfl rfl

/-! ### C4 -/

/-- C4: a successful advertise call with the supported service returns
exactly the literal prefix `001e# service=git-upload-pack\n0000`
followed verbatim by the delegated operation output, under the
advertisement content type; moreover the prefix decomposes as the
length-prefixed announcement line followed by the flush packet, with
`0x1e` equal to 4 plus the announcement length. -/
theorem advertise_exact_framing (req : Request) (env : FsEnv)
    (cap : GitCap) (d : List String) (out : Bytes)
    (hpath : req.path = "/info/refs")
    (hsvc : queryGet req.query "service" = some "git-upload-pack")
    (hdir : env.read_dir = IoResult.ok d)
    (hadv : cap.advertise_refs (repoPath req.n) = (true, out)) :
    tuple_n_git req env cap = RunResult.ok
      ⟨200, some "application/x-git-upload-pack-advertisement",
        strBytes "001e# service=git-upload-pack\n0000" ++ out⟩ ∧
    strBytes "001e# service=git-upload-pack\n0000" =
      strBytes "001e" ++ strBytes "# service=git-upload-pack\n" ++
        strBytes "0000" ∧
    4 + (strBytes "# service=git-upload-pack\n").length = 0x1e := by
  refine ⟨?_, by decide, by decide⟩
  simp [tuple_n_git, init_repo, hdir, hpath, hsvc, hadv]

/-- Witness for C4 at n = 5 with advertise output `[1, 2, 3]`. -/
theorem advertise_exact_framing_witness :
    tuple_n_git ⟨5, "/info/refs", [("service", "git-upload-pack")], []⟩
        fastPathEnv ⟨fun _ => (true, [1, 2, 3]), fun _ x => (true, x)⟩ =
      RunResult.ok
        ⟨200, some "application/x-git-upload-pack-advertisement",
          strBytes "001e# service=git-upload-pack\n0000" ++ [1, 2, 3]⟩ :=
  (advertise_exact_framing
    ⟨5, "/info/refs", [("service", "git-upload-pack")], []⟩ fastPathEnv
    ⟨fun _ => (true, [1, 2, 3]), fun _ x => (true, x)⟩ [] [1, 2, 3]
    rfl rfl rfl rfl).1

/-! ### C1 -/

/-- The outcome shape the spec ascribes to a ClientProtocolError: a
request-rejection (4xx) response, with nothing logged as a server
fault. -/
def requestRejectedQuietly : HResult → Bool
  | .resp r logs => decide (400 ≤ r.status) && decide (r.status < 500)
      && logs.isEmpty
  | .panic _ => false

/-- An `/info/refs` request with no `service` query parameter at all. -/
def noServiceReq : Request := ⟨1, "/info/refs", [], []⟩

/-- C1 counterexample: for the concrete refs-discovery request with an
absent `service` parameter, the handler does NOT produce a
request-rejection response: it produces the same opaque 500
`internal server error` used for server faults, and logs the error as
`unhandled git error: ...` exactly as it logs server faults. -/
theorem bad_service_counterexample :
    tuple_n_git_handler noServiceReq fastPathEnv echoCap =
      HResult.resp ⟨500, none, strBytes "internal server error"⟩
        ["unhandled git error: unsupported service; use a better git client"] ∧
    requestRejectedQuietly
      (tuple_n_git_handler noServiceReq fastPathEnv echoCap) = false := by
  exact ⟨rfl, rfl⟩

/-- C1 amended: an unsupported (or absent, or empty) service name on
`/info/refs`, and any subpath other than `/info/refs` and
`/git-upload-pack`, make `tuple_n_git` fail with a `bail!` message
error before invoking the delegated capability — but the handler
surfaces every such failure as the one opaque 500 internal-server-error
response and logs it as `unhandled git error`, indistinguishably from
a server fault. -/
theorem bad_request_surfaced_as_500 (req : Request) (env : FsEnv)
    (cap : GitCap) (repo : String)
    (hinit : (init_repo req.n env).result = Except.ok repo)
    (hbad : (req.path = "/info/refs" ∧
        (queryGet req.query "service").getD "" ≠ "git-upload-pack") ∨
      (req.path ≠ "/info/refs" ∧ req.path ≠ "/git-upload-pack")) :
    ∃ msg, tuple_n_git req env cap =
        RunResult.err (AppError.message msg) ∧
      tuple_n_git_handler req env cap =
        HResult.resp ⟨500, none, strBytes "internal server error"⟩
          ["unhandled git error: " ++ msg] := by
  rcases hbad with ⟨hp, hs⟩ | ⟨hp1, hp2⟩
  · refine ⟨"unsupported service; use a better git client", ?_, ?_⟩
    · simp [tuple_n_git, hinit, hp, hs]
    · simp [tuple_n_git_handler, tuple_n_git, hinit, hp, hs,
        AppError.display]
  · refine ⟨"not supported: " ++ req.path, ?_, ?_⟩
    · simp [tuple_n_git, hinit, hp1, hp2]
    · simp [tuple_n_git_handler, tuple_n_git, hinit, hp1, hp2,
        AppError.display]

/-- Witness for the amended C1: an unsupported subpath yields the 500
response with the `unhandled git error` log line. -/
theorem bad_request_surfaced_as_500_witness :
    ∃ msg, tuple_n_git ⟨2, "/HEAD", [], []⟩ fastPathEnv echoCap =
        RunResult.err (AppError.message msg) ∧
      tuple_n_git_handler ⟨2, "/HEAD", [], []⟩ fastPathEnv echoCap =
        HResult.resp ⟨500, none, strBytes "internal server error"⟩
          ["unhandled git error: " ++ msg] :=
  bad_request_surfaced_as_500 ⟨2, "/HEAD", [], []⟩ fastPathEnv echoCap
    (repoPath 2) rfl (Or.inr ⟨by decide, by decide⟩)

/-! ### C3 -/

/-- A pack-negotiation request whose body arrives as two data frames. -/
def twoFrameReq : Request := ⟨1, "/git-upload-pack", [], [[49], [50]]⟩

/-- C3 counterexample: with the echoing capability, a body that arrives
as the two frames `[49]` and `[50]` produces the response body `[49]` —
the output of the capability on the FIRST frame only — which differs
from the capability output on the full buffered body `[49, 50]`.  The
request body is thus not fed to the stateless-negotiate operation in
its entirety. -/
theorem negotiate_drops_later_frames_counterexample :
    tuple_n_git twoFrameReq fastPathEnv echoCap =
      RunResult.ok ⟨200, some "application/x-git-upload-pack-result",
        [49]⟩ ∧
    (echoCap.negotiate (repoPath 1) twoFrameReq.body.flatten).2 = [49, 50] ∧
    ([49] : Bytes) ≠ [49, 50] := by
  exact ⟨rfl, rfl, by decide⟩

/-- C3 amended: the pack-negotiation handler feeds exactly the FIRST
data frame of the request body to the stateless-negotiate operation and
returns the captured output verbatim (unmodified) as the response body,
under the pack-result content type; the frame fed equals the entire
body precisely when the body arrives as a single frame. -/
theorem negotiate_first_frame_verbatim (req : Request) (env : FsEnv)
    (cap : GitCap) (d : List String) (chunk : Bytes) (rest : List Bytes)
    (out : Bytes)
    (hpath : req.path = "/git-upload-pack")
    (hdir : env.read_dir = IoResult.ok d)
    (hbody : req.body = chunk :: rest)
    (hneg : cap.negotiate (repoPath req.n) chunk = (true, out)) :
    tuple_n_git req env cap = RunResult.ok
      ⟨200, some "application/x-git-upload-pack-result", out⟩ ∧
    (rest = [] → req.body.flatten = chunk) := by
  constructor
  · simp [tuple_n_git, init_repo, hdir, hpath, hbody, hneg]
  · intro hrest
    simp [hbody, hrest]

/-- Witness for the amended C3: a single-frame body `[3, 4]` is fed
whole and the echoed output comes back verbatim. -/
theorem negotiate_first_frame_verbatim_witness :
    tuple_n_git ⟨4, "/git-upload-pack", [], [[3, 4]]⟩ fastPathEnv
        echoCap = RunResult.ok
      ⟨200, some "application/x-git-upload-pack-result", [3, 4]⟩ ∧
    (([] : List Bytes) = [] →
      (Request.body ⟨4, "/git-upload-pack", [], [[3, 4]]⟩).flatten =
        [3, 4]) :=
  negotiate_first_frame_verbatim ⟨4, "/git-upload-pack", [], [[3, 4]]⟩
    fastPathEnv echoCap [] [3, 4] [] [3, 4] rfl rfl rfl rfl

/-! ### C5 -/

/-- C5: generation is a pure, deterministic function of the key `n`:
any two invocations of `generate n` — under any two ambient process
states, i.e. in the same or different processes, at any wall-clock
times — produce byte-identical contents for all three generated files
(manifest, source body, license). -/
theorem generate_deterministic (a1 a2 : Ambient) (n : Nat) :
    generate a1 n = generate a2 n := rfl

/-! ### C8 -/

/-- Recognizes the commit operation in a repository action trace. -/
def RepoAction.isCommit : RepoAction → Bool
  | .commit _ _ _ _ _ => true
  | _ => false

/-- C8: the materialization trace stages the three generated files and
contains exactly one commit — parentless (the initial commit), with
author and committer both the fixed identity `Euan Kemp
<euank@euank.com>` at the fixed non-wall-clock time 420 (offset 69),
message `Initial commit`, created on the fixed branch
`refs/heads/main` — and ends by setting that branch as head; and the
whole trace is independent of the ambient process state, so two
independent materializations of the same key produce identical
repository history. -/
theorem materialization_fixed_commit (a1 a2 : Ambient) (root : String)
    (n : Nat) :
    write_nary_tuple a1 root n = write_nary_tuple a2 root n ∧
    (write_nary_tuple a1 root n).filter RepoAction.isCommit =
      [RepoAction.commit (some "refs/heads/main") commitSignature
        commitSignature "Initial commit" 0] ∧
    commitSignature = ⟨"Euan Kemp", "euank@euank.com", 420, 69⟩ ∧
    RepoAction.indexAdd "go.mod" ∈ write_nary_tuple a1 root n ∧
    RepoAction.indexAdd "tuple.go" ∈ write_nary_tuple a1 root n ∧
    RepoAction.indexAdd "LICENSE" ∈ write_nary_tuple a1 root n ∧
    (write_nary_tuple a1 root n).getLast? =
      some (RepoAction.setHead "refs/heads/main") := by
  refine ⟨rfl, rfl, rfl, ?_, ?_, ?_, rfl⟩ <;> simp [write_nary_tuple]

/-! ### C6 -/

set_option maxRecDepth 4096 in
/-- C6: for every `n` the generated source declares an n-ary aggregate:
the type-parameter list has exactly `n` entries `T0 .. T(n-1)`; the
member list has exactly `n` entries, member `i` being named and typed
by the `i`-th type parameter (`Ti Ti`); the constructor takes exactly
`n` positional arguments `ti` typed by the respective parameter
(`ti Ti`) and instantiates the struct with them in order; the unpack
operation returns exactly the `n` members, in declaration order
(`t.Ti`).  For n = 0 every generated parameter/member/argument/return
fragment degrades to the empty string (never to empty brackets), and
the n = 0 source file is exactly the closed-form text below — a
syntactically well-formed degenerate Go file with no `[]` anywhere. -/
theorem nary_tuple_shape (n : Nat) :
    (typeParamNames n).length = n ∧
    (memberDecls n).length = n ∧
    (newArgDecls n).length = n ∧
    (unpackRetExprs n).length = n ∧
    (structInstArgs n).length = n ∧
    (∀ i, i < n → (typeParamNames n)[i]? = some ("T" ++ toString i)) ∧
    memberDecls n = ((typeParamNames n).map fun t => t ++ " " ++ t) ∧
    newArgDecls n = ((List.range n).map fun i =>
      ("t" ++ toString i) ++ " " ++ ("T" ++ toString i)) ∧
    unpackRetExprs n = ((typeParamNames n).map fun t => "t." ++ t) ∧
    (constraints 0 = "" ∧ tuple_members 0 = "" ∧ inst_params 0 = "" ∧
      multiple_ret 0 = "" ∧ multiple_ret_body 0 = "" ∧
      new_args 0 = "" ∧ struct_inst_body 0 = "") ∧
    tupleGoContent 0 =
      "// Package tuple provides an 0-ary tuple implementation. This is useful for cases\n" ++
      "// where multiple values should be grouped together, such as for passing across channels.\n" ++
      "// Multiple returns and n-ary tuples may be converted between as well by using the " ++
        apos.toString ++ "New" ++ apos.toString ++ " method to\n" ++
      "// go from n-ary return to a Tuple, and using Tuple.Unpack to convert in the other direction.\n" ++
      "package tuple\n" ++
      "\n" ++
      "// Tuple implements an 0-ary generic tuple.\n" ++
      "// It may be used\n" ++
      "type Tuple struct \x7b\n" ++
      "\t\n" ++
      "\x7d\n" ++
      "\n" ++
      "// New constructs a new tuple from the given arguments.\n" ++
      "func New() Tuple \x7b\n" ++
      "\treturn Tuple\x7b\x7d\n" ++
      "\x7d\n" ++
      "\n" ++
      "// Unpack unpacks a Tuple via multiple-return of the contained data.\n" ++
      "func (t Tuple) Unpack() \x7b\n" ++
      "\t\n" ++
      "\x7d\n" := by
  refine ⟨by simp [typeParamNames], by simp [memberDecls],
    by simp [newArgDecls], by simp [unpackRetExprs],
    by simp [structInstArgs], ?_, ?_, ?_, ?_,
    ⟨rfl, rfl, rfl, rfl, rfl, rfl, rfl⟩, by rfl⟩
  · intro i hi
    simp [typeParamNames, List.getElem?_map, List.getElem?_range, hi]
  · unfold memberDecls typeParamNames
    rw [List.map_map]
    apply List.map_congr_left
    intro i _
    apply String.ext
    simp [String.data_append, List.append_assoc]
  · unfold newArgDecls
    apply List.map_congr_left
    intro i _
    apply String.ext
    simp [String.data_append, List.append_assoc]
  · unfold unpackRetExprs typeParamNames
    rw [List.map_map]
    apply List.map_congr_left
    intro i _
    exact rfl

/-- Witness for C6: the shape facts instantiated at n = 3 and i = 1. -/
theorem nary_tuple_shape_witness :
    (typeParamNames 3)[1]? = some ("T" ++ toString 1) ∧
    (typeParamNames 3).length = 3 :=
  ⟨(nary_tuple_shape 3).2.2.2.2.2.1 1 (by decide), (nary_tuple_shape 3).1⟩

end PkgGolangFail
